import Mathlib

/-!
Shallow embedding of the catalog module of the `delta-sharing-rs` server
(files `src/catalog/mod.rs`, `src/catalog/file/mod.rs`,
`src/catalog/file/model.rs`), together with proofs about the pagination
protocol, the access-control filtering, the `get_*` error behaviour and
the entity builders.

Machine integers (`usize`, `u32`) are embedded as `Nat`; Rust's
`str::parse::<usize>` keeps its range check (values `≥ 2^64` fail to
parse, as in the source).  Rust slice indexing panics when the start
index exceeds the length; a panic is modelled explicitly as a third
outcome besides `Ok`/`Err`.
-/

namespace DeltaSharing

/-- `CatalogErrorKind` from `src/catalog/mod.rs`. -/
inductive CatalogErrorKind where
  | resourceNotFound
  | resourceForbidden
  | malformedPagination
  | internal
deriving DecidableEq, Repr

/-- `CatalogError` from `src/catalog/mod.rs`: a kind plus a free-text message. -/
structure CatalogError where
  kind : CatalogErrorKind
  message : String
deriving DecidableEq, Repr

/-- `CatalogError::not_found`. -/
def CatalogError.notFound (message : String) : CatalogError :=
  ⟨CatalogErrorKind.resourceNotFound, message⟩

/-- `CatalogError::forbidden`. -/
def CatalogError.forbidden (message : String) : CatalogError :=
  ⟨CatalogErrorKind.resourceForbidden, message⟩

/-- `CatalogError::malformed_pagination`. -/
def CatalogError.malformedPagination (message : String) : CatalogError :=
  ⟨CatalogErrorKind.malformedPagination, message⟩

/-- `CatalogError::internal`. -/
def CatalogError.internal (message : String) : CatalogError :=
  ⟨CatalogErrorKind.internal, message⟩

/-- `Pagination` from `src/catalog/mod.rs` (`max_results: Option<u32>`,
`page_token: Option<String>`). -/
structure Pagination where
  maxResults : Option Nat
  pageToken : Option String
deriving DecidableEq, Repr

/-- `Page<T>` from `src/catalog/mod.rs`. -/
structure Page (T : Type) where
  items : List T
  nextPageToken : Option String
deriving DecidableEq, Repr

/-- Outcome of running a Rust function that can return `Ok`, return `Err`,
or panic (slice indexing out of range). -/
inductive RustResult (α : Type) where
  | panic (msg : String)
  | err (e : CatalogError)
  | ok (a : α)
deriving DecidableEq, Repr

/-! ### Decimal strings

`usize::to_string` and `str::parse::<usize>`, the encoding and decoding
of pagination tokens. -/

/-- Most-significant-digit-first decimal digits of `n`; the first argument
is structural fuel (any fuel `> n` is enough). -/
def natToDecimalAux : Nat → Nat → List Char
  | 0, _ => []
  | fuel + 1, n =>
    if n < 10 then [Nat.digitChar n]
    else natToDecimalAux fuel (n / 10) ++ [Nat.digitChar (n % 10)]

/-- Decimal representation of `n`, as produced by Rust's `usize::to_string`. -/
def natToDecimal (n : Nat) : String :=
  ⟨natToDecimalAux (n + 1) n⟩

/-- Rust's unsigned integer parsing accepts one optional leading `+`. -/
def stripPlus (l : List Char) : List Char :=
  match l with
  | [] => []
  | c :: rest => if c = '+' then rest else c :: rest

/-- Accumulate base-10 digits most-significant first. -/
def decimalFold (l : List Char) : Nat :=
  l.foldl (fun acc c => acc * 10 + (c.toNat - 48)) 0

/-- `str::parse::<usize>`: an optional leading `+`, then one or more ASCII
digits, value below `2^64`; anything else fails. -/
def parseUsize (s : String) : Option Nat :=
  let ds := stripPlus s.data
  if ds ≠ [] ∧ ds.all Char.isDigit then
    let v := decimalFold ds
    if v < 2 ^ 64 then some v else none
  else none

/-! ### Slices

Rust slice indexing: `&v[a..]` panics when `a > v.len()`; `&v[a..b]`
panics when `a > b` or `b > v.len()`. -/

/-- `&items[a..]`. -/
def sliceFrom {T : Type} (items : List T) (a : Nat) : RustResult (List T) :=
  if a ≤ items.length then .ok (items.drop a)
  else .panic "range start index out of range"

/-- `&items[a..b]`. -/
def sliceRange {T : Type} (items : List T) (a b : Nat) : RustResult (List T) :=
  if a ≤ b ∧ b ≤ items.length then .ok ((items.drop a).take (b - a))
  else .panic "slice index out of range"

/-! ### The pagination protocol (`paginate_response`, `src/catalog/file/mod.rs`) -/

/-- The offset computation at the start of `paginate_response`: absent token
means offset `0`; a present token is parsed as `usize`, a parse failure
becomes `CatalogError::malformed_pagination("Invalid page token")`. -/
def offsetOf (pagination : Pagination) : Except CatalogError Nat :=
  match pagination.pageToken with
  | none => .ok 0
  | some token =>
    match parseUsize token with
    | some n => .ok n
    | none => .error (CatalogError.malformedPagination "Invalid page token")

/-- `paginate_response` from `src/catalog/file/mod.rs`: compute the offset
from the page token, default `max_results` to 500, and slice. -/
def paginate_response {T : Type} (items : List T) (pagination : Pagination) :
    RustResult (Page T) :=
  match offsetOf pagination with
  | .error e => .err e
  | .ok offset =>
    let max_results := pagination.maxResults.getD 500
    if offset + max_results ≥ items.length then
      match sliceFrom items offset with
      | .ok xs => .ok ⟨xs, none⟩
      | .err e => .err e
      | .panic m => .panic m
    else
      match sliceRange items offset (offset + max_results) with
      | .ok xs => .ok ⟨xs, some (natToDecimal (offset + max_results))⟩
      | .err e => .err e
      | .panic m => .panic m

/-! ### Entity model (`src/catalog/mod.rs`)

Extension bags are `HashMap<String, String>` in the source; they are
embedded as association lists.  No claim inspects a bag beyond equality
of what was set. -/

/-- `Share` from `src/catalog/mod.rs`. -/
structure Share where
  id : Option String
  name : String
  extensions : Option (List (String × String))
deriving DecidableEq, Repr

/-- `Schema` from `src/catalog/mod.rs`. -/
structure Schema where
  id : Option String
  name : String
  shareName : String
  extensions : Option (List (String × String))
deriving DecidableEq, Repr

/-- `Table` from `src/catalog/mod.rs`. -/
structure Table where
  id : Option String
  name : String
  shareId : Option String
  shareName : String
  schemaName : String
  storageLocation : String
  extensions : Option (List (String × String))
deriving DecidableEq, Repr

/-! ### Builders (`src/catalog/mod.rs`) -/

/-- `ShareBuilder`: all fields optional until `build`. -/
structure ShareBuilder where
  id : Option String := none
  name : Option String := none
  extensions : Option (List (String × String)) := none
deriving DecidableEq, Repr

/-- `ShareBuilder::build`: requires `name`, else `CatalogError::internal`. -/
def ShareBuilder.build (b : ShareBuilder) : Except CatalogError Share :=
  match b.name with
  | none => .error (CatalogError.internal "the required attribute `name` was not set")
  | some share_name => .ok ⟨b.id, share_name, b.extensions⟩

/-- `SchemaBuilder`. -/
structure SchemaBuilder where
  schemaId : Option String := none
  shareId : Option String := none
  schemaName : Option String := none
  shareName : Option String := none
  extensions : Option (List (String × String)) := none
deriving DecidableEq, Repr

/-- `SchemaBuilder::build`: requires `name` then `share_name`, else
`CatalogError::internal` naming the first missing one. -/
def SchemaBuilder.build (b : SchemaBuilder) : Except CatalogError Schema :=
  match b.schemaName with
  | none => .error (CatalogError.internal "the required attribute `name` was not set")
  | some schema_name =>
    match b.shareName with
    | none => .error (CatalogError.internal "the required attribute `share_name` was not set")
    | some share_name => .ok ⟨b.schemaId, schema_name, share_name, b.extensions⟩

/-- `TableBuilder`. -/
structure TableBuilder where
  shareId : Option String := none
  schemaId : Option String := none
  tableId : Option String := none
  shareName : Option String := none
  schemaName : Option String := none
  tableName : Option String := none
  storagePath : Option String := none
  extensions : Option (List (String × String)) := none
deriving DecidableEq, Repr

/-- `TableBuilder::build`: requires `share_name`, `schema_name`,
`table_name`, `storage_path` (checked in that order), else
`CatalogError::internal` naming the first missing one. -/
def TableBuilder.build (b : TableBuilder) : Except CatalogError Table :=
  match b.shareName with
  | none => .error (CatalogError.internal "the required attribute `share_name` was not set")
  | some share_name =>
    match b.schemaName with
    | none => .error (CatalogError.internal "the required attribute `schema_name` was not set")
    | some schema_name =>
      match b.tableName with
      | none => .error (CatalogError.internal "the required attribute `table_name` was not set")
      | some table_name =>
        match b.storagePath with
        | none => .error (CatalogError.internal "the required attribute `storage_path` was not set")
        | some storage_path =>
          .ok ⟨b.tableId, table_name, b.shareId, share_name, schema_name, storage_path,
               b.extensions⟩

/-! ### Configuration descriptors (`src/catalog/file/model.rs`) -/

/-- `TableConfig`. -/
structure TableConfig where
  name : String
  location : String
  id : Option String
  extensions : Option (List (String × String))
deriving DecidableEq, Repr

/-- `SchemaConfig`. -/
structure SchemaConfig where
  name : String
  tables : List TableConfig
deriving DecidableEq, Repr

/-- `ShareConfig`. -/
structure ShareConfig where
  name : String
  schemas : List SchemaConfig
  recipients : Option (List String)
  extensions : Option (List (String × String))
deriving DecidableEq, Repr

/-- `ShareFile`: the in-memory snapshot loaded from the configuration file. -/
structure ShareFile where
  shares : List ShareConfig
deriving DecidableEq, Repr

/-- `ShareConfig::to_share`: in the source this runs
`Share::builder().name(&self.name).set_extensions(..).build().expect("valid share")`;
since `name` is always set the builder cannot fail, and the result is this
record (proved in `toShare_eq_build` below). -/
def ShareConfig.toShare (cfg : ShareConfig) : Share :=
  ⟨none, cfg.name, cfg.extensions⟩

/-- `SchemaConfig::to_schema(share_name)` via `Schema::builder()`; cannot
fail (proved in `toSchema_eq_build` below). -/
def SchemaConfig.toSchema (cfg : SchemaConfig) (share_name : String) : Schema :=
  ⟨none, cfg.name, share_name, none⟩

/-- `TableConfig::to_table(share_name, schema_name)` via `Table::builder()`;
cannot fail (proved in `toTable_eq_build` below). -/
def TableConfig.toTable (cfg : TableConfig) (share_name schema_name : String) : Table :=
  ⟨cfg.id, cfg.name, none, share_name, schema_name, cfg.location, cfg.extensions⟩

/-- The recipient filter applied by every `ShareFile` operation:
`match &cfg.recipients { Some(r) => r.iter().any(|r| r == recipient), None => true }`. -/
def shareVisible (recipient : String) (cfg : ShareConfig) : Bool :=
  match cfg.recipients with
  | some rs => rs.any (fun r => r == recipient)
  | none => true

/-- `ShareFile::list_shares`. -/
def ShareFile.list_shares (f : ShareFile) (recipient : String) : List Share :=
  ((f.shares.filter (shareVisible recipient)).map ShareConfig.toShare)

/-- `ShareFile::list_schemas`. -/
def ShareFile.list_schemas (f : ShareFile) (recipient share_name : String) : List Schema :=
  ((((f.shares.filter (shareVisible recipient)).filter
      (fun cfg => cfg.name == share_name)).flatMap
      (fun cfg => cfg.schemas)).map
      (fun schema_cfg => schema_cfg.toSchema share_name))

/-- `ShareFile::list_tables_in_share`: for every visible, name-matching
share, every table of every schema, tagged with its schema's name. -/
def ShareFile.list_tables_in_share (f : ShareFile) (recipient share_name : String) :
    List Table :=
  (((f.shares.filter (shareVisible recipient)).filter
      (fun cfg => cfg.name == share_name)).flatMap
      (fun cfg => cfg.schemas.flatMap
        (fun schema_cfg => schema_cfg.tables.map
          (fun table_cfg => table_cfg.toTable share_name schema_cfg.name))))

/-- `ShareFile::list_tables_in_schema`. -/
def ShareFile.list_tables_in_schema (f : ShareFile)
    (recipient share_name schema_name : String) : List Table :=
  ((((((f.shares.filter (shareVisible recipient)).filter
      (fun cfg => cfg.name == share_name)).flatMap
      (fun cfg => cfg.schemas)).filter
      (fun schema_cfg => schema_cfg.name == schema_name)).flatMap
      (fun schema_cfg => schema_cfg.tables)).map
      (fun table_cfg => table_cfg.toTable share_name schema_name))

/-- `ShareFile::get_share`: list then find by exact name. -/
def ShareFile.get_share (f : ShareFile) (name recipient : String) : Option Share :=
  (f.list_shares recipient).find? (fun share => share.name == name)

/-- `ShareFile::get_table`: list tables in the schema then find by exact name. -/
def ShareFile.get_table (f : ShareFile)
    (share_name schema_name table_name recipient : String) : Option Table :=
  (f.list_tables_in_schema recipient share_name schema_name).find?
    (fun t => t.name == table_name)

/-! ### The `Catalog` implementation for `FileCatalog` (`src/catalog/file/mod.rs`)

A `FileCatalog` after construction is just its loaded `ShareFile`
snapshot; the `RecipientId` argument reaches these functions only as
`recipient_id.as_ref()`, a string. -/

/-- `FileCatalog::list_shares`. -/
def FileCatalog.list_shares (f : ShareFile) (recipient : String)
    (pagination : Pagination) : RustResult (Page Share) :=
  paginate_response (f.list_shares recipient) pagination

/-- `FileCatalog::get_share`: `ok_or(CatalogError::not_found(""))`. -/
def FileCatalog.get_share (f : ShareFile) (share_name recipient : String) :
    Except CatalogError Share :=
  match f.get_share share_name recipient with
  | some share => .ok share
  | none => .error (CatalogError.notFound "")

/-- `FileCatalog::list_schemas`. -/
def FileCatalog.list_schemas (f : ShareFile) (share_name recipient : String)
    (pagination : Pagination) : RustResult (Page Schema) :=
  paginate_response (f.list_schemas recipient share_name) pagination

/-- `FileCatalog::list_tables_in_share`. -/
def FileCatalog.list_tables_in_share (f : ShareFile) (share_name recipient : String)
    (pagination : Pagination) : RustResult (Page Table) :=
  paginate_response (f.list_tables_in_share recipient share_name) pagination

/-- `FileCatalog::list_tables_in_schema`. -/
def FileCatalog.list_tables_in_schema (f : ShareFile)
    (share_name schema_name recipient : String) (pagination : Pagination) :
    RustResult (Page Table) :=
  paginate_response (f.list_tables_in_schema recipient share_name schema_name) pagination

/-- `FileCatalog::get_table`: find by name in `list_tables_in_schema`,
`ok_or(CatalogError::not_found("table not found"))`. -/
def FileCatalog.get_table (f : ShareFile)
    (share_name schema_name table_name recipient : String) :
    Except CatalogError Table :=
  match (f.list_tables_in_schema recipient share_name schema_name).find?
      (fun t => t.name == table_name) with
  | some t => .ok t
  | none => .error (CatalogError.notFound "table not found")

/-! ### Lemmas: decimal strings round-trip -/

theorem digitChar_isDigit {d : Nat} (hd : d < 10) : (Nat.digitChar d).isDigit = true := by
  interval_cases d <;> decide

theorem digitChar_toNat {d : Nat} (hd : d < 10) : (Nat.digitChar d).toNat = 48 + d := by
  interval_cases d <;> decide

theorem digitChar_ne_plus {d : Nat} (hd : d < 10) : Nat.digitChar d ≠ '+' := by
  interval_cases d <;> decide

theorem natToDecimalAux_ne_nil {fuel n : Nat} (h : n < fuel) :
    natToDecimalAux fuel n ≠ [] := by
  match fuel with
  | fuel + 1 =>
    unfold natToDecimalAux
    split
    · simp
    · simp

theorem natToDecimalAux_all_digits {fuel n : Nat} (h : n < fuel) :
    ∀ c ∈ natToDecimalAux fuel n, c.isDigit = true := by
  induction fuel generalizing n with
  | zero => omega
  | succ fuel ih =>
    intro c hc
    unfold natToDecimalAux at hc
    split at hc
    · simp at hc
      subst hc
      exact digitChar_isDigit (by omega)
    · rename_i hn
      simp only [List.mem_append, List.mem_singleton] at hc
      rcases hc with hc | hc
      · exact ih (by omega : n / 10 < fuel) c hc
      · subst hc
        exact digitChar_isDigit (Nat.mod_lt _ (by omega))

theorem decimalFold_append_digit (l : List Char) (c : Char) :
    decimalFold (l ++ [c]) = decimalFold l * 10 + (c.toNat - 48) := by
  simp [decimalFold, List.foldl_append]

theorem decimalFold_natToDecimalAux {fuel n : Nat} (h : n < fuel) :
    decimalFold (natToDecimalAux fuel n) = n := by
  induction fuel generalizing n with
  | zero => omega
  | succ fuel ih =>
    unfold natToDecimalAux
    split
    · rename_i hn
      simp [decimalFold, digitChar_toNat hn]
    · rename_i hn
      rw [decimalFold_append_digit, ih (by omega : n / 10 < fuel),
          digitChar_toNat (Nat.mod_lt _ (by omega))]
      omega

theorem stripPlus_of_head_digit {l : List Char} (hne : l ≠ [])
    (hd : ∀ c ∈ l, c.isDigit = true) : stripPlus l = l := by
  match l with
  | c :: rest =>
    have hc : c.isDigit = true := hd c (by simp)
    have hcp : ¬(c = '+') := by
      intro hp
      subst hp
      exact absurd hc (by decide)
    simp [stripPlus, hcp]

/-- `usize::to_string` round-trips through `str::parse::<usize>` for every
value a `usize` can hold. -/
theorem parseUsize_natToDecimal {n : Nat} (h : n < 2 ^ 64) :
    parseUsize (natToDecimal n) = some n := by
  have hfuel : n < n + 1 := Nat.lt_succ_self n
  have hne := natToDecimalAux_ne_nil hfuel
  have hdig := natToDecimalAux_all_digits hfuel
  unfold parseUsize natToDecimal
  simp only [String.data]
  rw [stripPlus_of_head_digit hne hdig]
  rw [if_pos ⟨hne, List.all_eq_true.mpr hdig⟩]
  rw [decimalFold_natToDecimalAux hfuel]
  split
  · rfl
  · omega

/-! ### Lemmas: `paginate_response` case analysis -/

theorem paginate_response_err {T : Type} (items : List T) (p : Pagination)
    (e : CatalogError) (he : offsetOf p = .error e) :
    paginate_response items p = .err e := by
  unfold paginate_response
  rw [he]

theorem paginate_response_last {T : Type} (items : List T) (p : Pagination)
    (offset : Nat) (ho : offsetOf p = .ok offset)
    (hle : offset ≤ items.length)
    (hend : items.length ≤ offset + p.maxResults.getD 500) :
    paginate_response items p = .ok ⟨items.drop offset, none⟩ := by
  unfold paginate_response
  rw [ho]
  simp only [ge_iff_le, if_pos hend, sliceFrom, if_pos hle]

theorem paginate_response_mid {T : Type} (items : List T) (p : Pagination)
    (offset : Nat) (ho : offsetOf p = .ok offset)
    (hmid : offset + p.maxResults.getD 500 < items.length) :
    paginate_response items p =
      .ok ⟨(items.drop offset).take (p.maxResults.getD 500),
           some (natToDecimal (offset + p.maxResults.getD 500))⟩ := by
  unfold paginate_response
  rw [ho]
  simp only [ge_iff_le]
  rw [if_neg (by omega)]
  unfold sliceRange
  rw [if_pos ⟨by omega, by omega⟩, Nat.add_sub_cancel_left]

theorem paginate_response_panic {T : Type} (items : List T) (p : Pagination)
    (offset : Nat) (ho : offsetOf p = .ok offset)
    (hgt : items.length < offset) :
    paginate_response items p = .panic "range start index out of range" := by
  unfold paginate_response
  rw [ho]
  simp only [ge_iff_le]
  rw [if_pos (by omega), sliceFrom, if_neg (by omega)]

/-- `parseUsize` only succeeds on values a `usize` can hold. -/
theorem parseUsize_lt_of_some {s : String} {n : Nat} (h : parseUsize s = some n) :
    n < 2 ^ 64 := by
  simp only [parseUsize] at h
  split at h
  · split at h
    · rename_i hv
      cases h
      exact hv
    · cases h
  · cases h

/-! ### Claim theorems -/

/-- C1: for a pagination request whose page token is absent (offset 0) or
parses to an offset with `offset ≤ length items`, `paginate_response`
returns `Ok` of the page computed with `limit = max_results` (default 500):
all remaining items and token `none` when `offset + limit ≥ length`
(an offset equal to the length yields the empty page), otherwise the
`limit`-sized slice at `offset` with token `Some (decimal (offset + limit))`. -/
theorem paginate_response_in_range_spec {T : Type} (items : List T) (p : Pagination)
    (offset : Nat) (ho : offsetOf p = .ok offset) (hle : offset ≤ items.length) :
    (items.length ≤ offset + p.maxResults.getD 500 →
      paginate_response items p = .ok ⟨items.drop offset, none⟩) ∧
    (offset + p.maxResults.getD 500 < items.length →
      paginate_response items p =
        .ok ⟨(items.drop offset).take (p.maxResults.getD 500),
             some (natToDecimal (offset + p.maxResults.getD 500))⟩) ∧
    (offset = items.length → paginate_response items p = .ok ⟨[], none⟩) := by
  refine ⟨fun hend => paginate_response_last items p offset ho hle hend,
          fun hmid => paginate_response_mid items p offset ho hmid, fun heq => ?_⟩
  have h := paginate_response_last items p offset ho hle (by omega)
  rw [h, heq, List.drop_length]

/-- Witness for C1 at a concrete input: three items, `max_results = 2`,
no token; the page is the first two items with token `"2"`. -/
theorem paginate_response_in_range_spec_witness :
    offsetOf ⟨some 2, none⟩ = .ok 0 ∧
    (0 : Nat) ≤ ([10, 11, 12] : List Nat).length ∧
    paginate_response ([10, 11, 12] : List Nat) ⟨some 2, none⟩ =
      .ok ⟨[10, 11], some "2"⟩ := by
  refine ⟨rfl, by decide, ?_⟩
  have h := (paginate_response_in_range_spec ([10, 11, 12] : List Nat)
    ⟨some 2, none⟩ 0 rfl (by decide)).2.1 (by decide)
  rw [h]
  decide

/-- C2 (divergence witness): an offset strictly beyond the sequence length
does not produce an empty `Ok` page — slicing `items[offset..]` panics.
Here the sequence is empty and the token is `"1"`. -/
theorem paginate_response_beyond_length_panics :
    paginate_response ([] : List Nat) ⟨none, some "1"⟩ =
      .panic "range start index out of range" := by
  decide

/-- C6: a present page token that fails to parse as a non-negative base-10
integer makes every listing operation return
`CatalogError::malformed_pagination("Invalid page token")`. -/
theorem listing_malformed_token (f : ShareFile) (r sn scn : String) (p : Pagination)
    (t : String) (ht : p.pageToken = some t) (hbad : parseUsize t = none) :
    FileCatalog.list_shares f r p =
      .err (CatalogError.malformedPagination "Invalid page token") ∧
    FileCatalog.list_schemas f sn r p =
      .err (CatalogError.malformedPagination "Invalid page token") ∧
    FileCatalog.list_tables_in_share f sn r p =
      .err (CatalogError.malformedPagination "Invalid page token") ∧
    FileCatalog.list_tables_in_schema f sn scn r p =
      .err (CatalogError.malformedPagination "Invalid page token") := by
  have he : offsetOf p = .error (CatalogError.malformedPagination "Invalid page token") := by
    simp [offsetOf, ht, hbad]
  exact ⟨paginate_response_err _ _ _ he, paginate_response_err _ _ _ he,
         paginate_response_err _ _ _ he, paginate_response_err _ _ _ he⟩

/-- Witness for C6 at a concrete input: token `"abc"` on an empty catalog. -/
theorem listing_malformed_token_witness :
    (⟨some 5, some "abc"⟩ : Pagination).pageToken = some "abc" ∧
    parseUsize "abc" = none ∧
    FileCatalog.list_shares ⟨[]⟩ "client1" ⟨some 5, some "abc"⟩ =
      .err (CatalogError.malformedPagination "Invalid page token") := by
  refine ⟨rfl, by decide, ?_⟩
  exact (listing_malformed_token ⟨[]⟩ "client1" "s" "sc" ⟨some 5, some "abc"⟩
    "abc" rfl (by decide)).1

/-- C7 (counterexample): with `max_results = 0`, one item and token `"0"`,
the returned `next_page_token` is `"0"` again — it encodes the *same*
offset `0`, not an offset strictly greater than the input offset. -/
theorem paginate_zero_max_counterexample :
    paginate_response ([7] : List Nat) ⟨some 0, some "0"⟩ = .ok ⟨[], some "0"⟩ ∧
    parseUsize "0" = some 0 := by
  constructor
  · decide
  · decide

/-- C7 (amended): with `max_results = 0` and a token parsing to
`offset < length items`, the result is an empty page whose token is the
decimal string of the *same* offset (which parses back to that offset),
so repeated calls never advance. -/
theorem paginate_zero_max_stalls {T : Type} (items : List T) (p : Pagination)
    (offset : Nat) (t : String) (hm : p.maxResults = some 0)
    (ht : p.pageToken = some t) (hp : parseUsize t = some offset)
    (hlt : offset < items.length) :
    paginate_response items p = .ok ⟨[], some (natToDecimal offset)⟩ ∧
    parseUsize (natToDecimal offset) = some offset := by
  have ho : offsetOf p = .ok offset := by
    simp [offsetOf, ht, hp]
  have hmax : p.maxResults.getD 500 = 0 := by rw [hm]; rfl
  constructor
  · have h := paginate_response_mid items p offset ho (by rw [hmax]; omega)
    rw [h, hmax]
    simp
  · exact parseUsize_natToDecimal (parseUsize_lt_of_some hp)

/-- Witness for the amended C7 at a concrete input. -/
theorem paginate_zero_max_stalls_witness :
    parseUsize "0" = some 0 ∧
    (0 : Nat) < ([7] : List Nat).length ∧
    paginate_response ([7] : List Nat) ⟨some 0, some "0"⟩ =
      .ok ⟨[], some (natToDecimal 0)⟩ := by
  refine ⟨by decide, by decide, ?_⟩
  exact (paginate_zero_max_stalls ([7] : List Nat) ⟨some 0, some "0"⟩ 0 "0"
    rfl rfl (by decide) (by decide)).1

/-! ### C5: pagination round-trip -/

/-- The client loop of the round-trip property: call `paginate_response`
with `max_results = m` and the current token, append the returned page,
and continue with the returned `next_page_token` until it is `none`.
`fuel` bounds the number of calls (any fuel `> length items` is enough
when `m ≥ 1`). -/
def pageLoop {T : Type} (items : List T) (m : Nat) : Nat → Option String → RustResult (List T)
  | 0, _ => .panic "fuel exhausted"
  | fuel + 1, token =>
    match paginate_response items ⟨some m, token⟩ with
    | .ok page =>
      match page.nextPageToken with
      | none => .ok page.items
      | some t =>
        match pageLoop items m fuel (some t) with
        | .ok rest => .ok (page.items ++ rest)
        | .err e => .err e
        | .panic s => .panic s
    | .err e => .err e
    | .panic s => .panic s

theorem pageLoop_from {T : Type} (items : List T) (m : Nat) (hm : 1 ≤ m)
    (hlen : items.length < 2 ^ 64) :
    ∀ (fuel offset : Nat) (tok : Option String),
      offsetOf ⟨some m, tok⟩ = .ok offset →
      offset ≤ items.length → items.length - offset < fuel →
      pageLoop items m fuel tok = .ok (items.drop offset) := by
  intro fuel
  induction fuel with
  | zero => omega
  | succ fuel ih =>
    intro offset tok ho hle hfuel
    have hmax : (Pagination.mk (some m) tok).maxResults.getD 500 = m := rfl
    by_cases hend : items.length ≤ offset + m
    · have h := paginate_response_last items ⟨some m, tok⟩ offset ho hle
        (by rw [hmax]; omega)
      unfold pageLoop
      rw [h]
    · have h := paginate_response_mid items ⟨some m, tok⟩ offset ho
        (by rw [hmax]; omega)
      rw [hmax] at h
      have hrec := ih (offset + m) (some (natToDecimal (offset + m)))
        (by simp [offsetOf, parseUsize_natToDecimal (show offset + m < 2 ^ 64 by omega)])
        (by omega) (by omega)
      unfold pageLoop
      rw [h]
      dsimp only
      rw [hrec]
      dsimp only
      rw [← List.drop_drop, List.take_append_drop]

/-- C5: for any item sequence (of `usize`-representable length) and any
`max_results ≥ 1`, starting with no page token and repeatedly calling
`paginate_response` with each returned `next_page_token` until it is
`none` concatenates to exactly the original sequence — every item once,
in order, no duplicates, no omissions. -/
theorem pagination_round_trip {T : Type} (items : List T) (m : Nat)
    (hm : 1 ≤ m) (hlen : items.length < 2 ^ 64) :
    pageLoop items m (items.length + 1) none = .ok items := by
  have h := pageLoop_from items m hm hlen (items.length + 1) 0 none rfl
    (Nat.zero_le _) (by omega)
  rw [h]
  rw [List.drop_zero]

/-- Witness for C5 at a concrete input: four items, pages of two. -/
theorem pagination_round_trip_witness :
    (1 : Nat) ≤ 2 ∧ ([4, 5, 6, 7] : List Nat).length < 2 ^ 64 ∧
    pageLoop ([4, 5, 6, 7] : List Nat) 2 5 none = .ok [4, 5, 6, 7] := by
  refine ⟨by decide, by norm_num, ?_⟩
  exact pagination_round_trip ([4, 5, 6, 7] : List Nat) 2 (by decide) (by norm_num)

/-! ### C3: access-control filtering -/

theorem shareVisible_iff (r : String) (cfg : ShareConfig) :
    shareVisible r cfg = true ↔
      cfg.recipients = none ∨ ∃ rs, cfg.recipients = some rs ∧ r ∈ rs := by
  unfold shareVisible
  cases h : cfg.recipients with
  | none => simp
  | some rs => simp [List.any_eq_true]

/-- If every share named `sn` is invisible to `r`, the visible-and-matching
filter is empty. -/
theorem matching_filter_nil (f : ShareFile) (r sn : String)
    (h : ∀ cfg ∈ f.shares, cfg.name = sn → shareVisible r cfg = false) :
    (f.shares.filter (shareVisible r)).filter (fun cfg => cfg.name == sn) = [] := by
  rw [List.filter_filter]
  rw [List.filter_eq_nil_iff]
  intro cfg hcfg
  simp only [Bool.and_eq_true, beq_iff_eq]
  rintro ⟨hname, hvis⟩
  rw [h cfg hcfg hname] at hvis
  cases hvis

/-- C3: a share appears in `list_shares r` exactly when a declared share
config maps to it whose recipients list is absent or contains `r`; a
present-but-empty recipients list is visible to nobody; and a share name
all of whose declarations are invisible to `r` contributes no schemas to
`list_schemas` and no tables to `list_tables_in_share` or
`list_tables_in_schema`. -/
theorem list_shares_visibility (f : ShareFile) (r : String) :
    (∀ S : Share, S ∈ f.list_shares r ↔
      ∃ cfg, cfg ∈ f.shares ∧ ShareConfig.toShare cfg = S ∧
        (cfg.recipients = none ∨ ∃ rs, cfg.recipients = some rs ∧ r ∈ rs)) ∧
    (∀ cfg : ShareConfig, cfg.recipients = some [] → shareVisible r cfg = false) ∧
    (∀ sn, (∀ cfg ∈ f.shares, cfg.name = sn → shareVisible r cfg = false) →
      f.list_schemas r sn = [] ∧ f.list_tables_in_share r sn = [] ∧
      ∀ scn, f.list_tables_in_schema r sn scn = []) := by
  refine ⟨?_, ?_, ?_⟩
  · intro S
    unfold ShareFile.list_shares
    simp only [List.mem_map, List.mem_filter]
    constructor
    · rintro ⟨cfg, ⟨hmem, hvis⟩, hmap⟩
      exact ⟨cfg, hmem, hmap, (shareVisible_iff r cfg).mp hvis⟩
    · rintro ⟨cfg, hmem, hmap, hcond⟩
      exact ⟨cfg, ⟨hmem, (shareVisible_iff r cfg).mpr hcond⟩, hmap⟩
  · intro cfg hempty
    unfold shareVisible
    rw [hempty]
    rfl
  · intro sn hinvis
    have hnil := matching_filter_nil f r sn hinvis
    refine ⟨?_, ?_, fun scn => ?_⟩
    · unfold ShareFile.list_schemas
      rw [hnil]
      rfl
    · unfold ShareFile.list_tables_in_share
      rw [hnil]
      rfl
    · unfold ShareFile.list_tables_in_schema
      rw [hnil]
      rfl

/-- Witness for C3 at a concrete snapshot: one public share, one restricted
to `client1`, one with an empty recipients list (the snapshot of the
source's `list_shares` unit test). -/
theorem list_shares_visibility_witness :
    (ShareConfig.toShare ⟨"share1", [], none, none⟩ ∈
      ShareFile.list_shares ⟨[⟨"share1", [], none, none⟩,
        ⟨"share2", [], some ["client1"], none⟩,
        ⟨"share3", [], some [], none⟩]⟩ "client2") ∧
    shareVisible "client2" ⟨"share3", [], some [], none⟩ = false ∧
    ShareFile.list_schemas ⟨[⟨"share2", [⟨"schema1", []⟩], some ["client1"], none⟩]⟩
      "client2" "share2" = [] := by
  refine ⟨?_, ?_, ?_⟩
  · exact ((list_shares_visibility ⟨[⟨"share1", [], none, none⟩,
      ⟨"share2", [], some ["client1"], none⟩, ⟨"share3", [], some [], none⟩]⟩
      "client2").1 _).mpr ⟨⟨"share1", [], none, none⟩, by decide, rfl, Or.inl rfl⟩
  · exact (list_shares_visibility ⟨[]⟩ "client2").2.1 ⟨"share3", [], some [], none⟩ rfl
  · exact ((list_shares_visibility ⟨[⟨"share2", [⟨"schema1", []⟩], some ["client1"], none⟩]⟩
      "client2").2.2 "share2" (by decide)).1

/-! ### C4: `get_share` / `get_table` error behaviour -/

/-- The error kind of an `Except CatalogError` result, if it is an error. -/
def errKind? {α : Type} (x : Except CatalogError α) : Option CatalogErrorKind :=
  match x with
  | .error e => some e.kind
  | .ok _ => none

theorem get_share_isSome_iff (f : ShareFile) (sn r : String) :
    (ShareFile.get_share f sn r).isSome = true ↔
      ∃ cfg, cfg ∈ f.shares ∧ shareVisible r cfg = true ∧ cfg.name = sn := by
  unfold ShareFile.get_share
  rw [List.find?_isSome]
  unfold ShareFile.list_shares
  simp only [List.mem_map, List.mem_filter, beq_iff_eq]
  constructor
  · rintro ⟨S, ⟨cfg, ⟨hm, hv⟩, hmap⟩, hname⟩
    subst hmap
    exact ⟨cfg, hm, hv, hname⟩
  · rintro ⟨cfg, hm, hv, hname⟩
    exact ⟨cfg.toShare, ⟨cfg, ⟨hm, hv⟩, rfl⟩, hname⟩

theorem mem_list_tables_in_schema (f : ShareFile) (r sn scn : String) (T : Table) :
    T ∈ f.list_tables_in_schema r sn scn ↔
      ∃ cfg, cfg ∈ f.shares ∧ shareVisible r cfg = true ∧ cfg.name = sn ∧
        ∃ sc, sc ∈ cfg.schemas ∧ sc.name = scn ∧
          ∃ tc, tc ∈ sc.tables ∧ tc.toTable sn scn = T := by
  unfold ShareFile.list_tables_in_schema
  simp only [List.mem_map, List.mem_flatMap, List.mem_filter, beq_iff_eq]
  constructor
  · rintro ⟨tc, ⟨sc, ⟨⟨cfg, ⟨⟨hcm, hcv⟩, hcn⟩, hscm⟩, hscn⟩, htm⟩, hmap⟩
    exact ⟨cfg, hcm, hcv, hcn, sc, hscm, hscn, tc, htm, hmap⟩
  · rintro ⟨cfg, hcm, hcv, hcn, sc, hscm, hscn, tc, htm, hmap⟩
    exact ⟨tc, ⟨sc, ⟨⟨cfg, ⟨⟨hcm, hcv⟩, hcn⟩, hscm⟩, hscn⟩, htm⟩, hmap⟩

theorem get_table_find_isSome_iff (f : ShareFile) (sn scn tn r : String) :
    ((f.list_tables_in_schema r sn scn).find? (fun t => t.name == tn)).isSome = true ↔
      ∃ cfg, cfg ∈ f.shares ∧ shareVisible r cfg = true ∧ cfg.name = sn ∧
        ∃ sc, sc ∈ cfg.schemas ∧ sc.name = scn ∧
          ∃ tc, tc ∈ sc.tables ∧ tc.name = tn := by
  rw [List.find?_isSome]
  constructor
  · rintro ⟨T, hTm, hTn⟩
    obtain ⟨cfg, hcm, hcv, hcn, sc, hscm, hscn, tc, htm, hmap⟩ :=
      (mem_list_tables_in_schema f r sn scn T).mp hTm
    subst hmap
    exact ⟨cfg, hcm, hcv, hcn, sc, hscm, hscn, tc, htm, by
      simpa [TableConfig.toTable] using hTn⟩
  · rintro ⟨cfg, hcm, hcv, hcn, sc, hscm, hscn, tc, htm, htn⟩
    exact ⟨tc.toTable sn scn,
      (mem_list_tables_in_schema f r sn scn _).mpr
        ⟨cfg, hcm, hcv, hcn, sc, hscm, hscn, tc, htm, rfl⟩,
      by simp [TableConfig.toTable, htn]⟩

/-- C4: `get_share` errs with kind `ResourceNotFound` exactly when no share
of that name is visible to the recipient, `get_table` errs with kind
`ResourceNotFound` exactly when no visible table matches all three names
(covering both nonexistent and invisible entities), and neither operation
ever produces kind `ResourceForbidden`. -/
theorem get_operations_not_found (f : ShareFile) (sn scn tn r : String) :
    (errKind? (FileCatalog.get_share f sn r) = some CatalogErrorKind.resourceNotFound ↔
      ¬ ∃ cfg, cfg ∈ f.shares ∧ shareVisible r cfg = true ∧ cfg.name = sn) ∧
    errKind? (FileCatalog.get_share f sn r) ≠ some CatalogErrorKind.resourceForbidden ∧
    (errKind? (FileCatalog.get_table f sn scn tn r) = some CatalogErrorKind.resourceNotFound ↔
      ¬ ∃ cfg, cfg ∈ f.shares ∧ shareVisible r cfg = true ∧ cfg.name = sn ∧
        ∃ sc, sc ∈ cfg.schemas ∧ sc.name = scn ∧
          ∃ tc, tc ∈ sc.tables ∧ tc.name = tn) ∧
    errKind? (FileCatalog.get_table f sn scn tn r) ≠ some CatalogErrorKind.resourceForbidden := by
  have hs := get_share_isSome_iff f sn r
  have ht := get_table_find_isSome_iff f sn scn tn r
  unfold FileCatalog.get_share FileCatalog.get_table
  refine ⟨?_, ?_, ?_, ?_⟩
  · cases h : ShareFile.get_share f sn r with
    | some s =>
      rw [h] at hs
      simp only [Option.isSome_some, true_iff] at hs
      simp [errKind?, hs]
    | none =>
      rw [h] at hs
      simp only [Option.isSome_none, Bool.false_eq_true, false_iff] at hs
      exact iff_of_true rfl hs
  · cases h : ShareFile.get_share f sn r <;>
      simp [errKind?, CatalogError.notFound]
  · cases h : (f.list_tables_in_schema r sn scn).find? (fun t => t.name == tn) with
    | some t =>
      rw [h] at ht
      simp only [Option.isSome_some, true_iff] at ht
      simp [errKind?, ht]
    | none =>
      rw [h] at ht
      simp only [Option.isSome_none, Bool.false_eq_true, false_iff] at ht
      exact iff_of_true rfl ht
  · cases h : (f.list_tables_in_schema r sn scn).find? (fun t => t.name == tn) <;>
      simp [errKind?, CatalogError.notFound]

/-- Witness for C4 at a concrete snapshot: an invisible share is reported
as not found, and so is a missing table. -/
theorem get_operations_not_found_witness :
    errKind? (FileCatalog.get_share ⟨[⟨"share2", [], some ["client1"], none⟩]⟩
      "share2" "other") = some CatalogErrorKind.resourceNotFound ∧
    errKind? (FileCatalog.get_table ⟨[⟨"share1", [⟨"schema1", [⟨"table1", "s3://b/p", none, none⟩]⟩], none, none⟩]⟩
      "share1" "schema1" "missing" "anon") = some CatalogErrorKind.resourceNotFound := by
  constructor
  · exact (get_operations_not_found ⟨[⟨"share2", [], some ["client1"], none⟩]⟩
      "share2" "x" "y" "other").1.mpr (by decide)
  · exact (get_operations_not_found
      ⟨[⟨"share1", [⟨"schema1", [⟨"table1", "s3://b/p", none, none⟩]⟩], none, none⟩]⟩
      "share1" "schema1" "missing" "anon").2.2.1.mpr (by decide)

/-! ### Builder setters (`src/catalog/mod.rs`)

The Rust setters are named `name`, `share_name`, … ; here they carry a
`with`/`set` prefix because the plain names are taken by the field
projections. -/

/-- `ShareBuilder::name`. -/
def ShareBuilder.withName (b : ShareBuilder) (n : String) : ShareBuilder :=
  { b with name := some n }

/-- `ShareBuilder::set_extensions`. -/
def ShareBuilder.setExtensions (b : ShareBuilder)
    (e : Option (List (String × String))) : ShareBuilder :=
  { b with extensions := e }

/-- `SchemaBuilder::name`. -/
def SchemaBuilder.withName (b : SchemaBuilder) (n : String) : SchemaBuilder :=
  { b with schemaName := some n }

/-- `SchemaBuilder::share_name`. -/
def SchemaBuilder.withShareName (b : SchemaBuilder) (n : String) : SchemaBuilder :=
  { b with shareName := some n }

/-- `TableBuilder::name`. -/
def TableBuilder.withName (b : TableBuilder) (n : String) : TableBuilder :=
  { b with tableName := some n }

/-- `TableBuilder::storage_path`. -/
def TableBuilder.withStoragePath (b : TableBuilder) (p : String) : TableBuilder :=
  { b with storagePath := some p }

/-- `TableBuilder::set_id`. -/
def TableBuilder.setId (b : TableBuilder) (i : Option String) : TableBuilder :=
  { b with tableId := i }

/-- `TableBuilder::schema_name`. -/
def TableBuilder.withSchemaName (b : TableBuilder) (n : String) : TableBuilder :=
  { b with schemaName := some n }

/-- `TableBuilder::share_name`. -/
def TableBuilder.withShareName (b : TableBuilder) (n : String) : TableBuilder :=
  { b with shareName := some n }

/-- `TableBuilder::set_extensions`. -/
def TableBuilder.setExtensions (b : TableBuilder)
    (e : Option (List (String × String))) : TableBuilder :=
  { b with extensions := e }

/-- `ShareConfig::to_share` is the source's builder chain
`Share::builder().name(..).set_extensions(..).build().expect(..)`:
the chain always succeeds and produces exactly `toShare`. -/
theorem toShare_eq_build (cfg : ShareConfig) :
    (({} : ShareBuilder).withName cfg.name |>.setExtensions cfg.extensions).build =
      .ok cfg.toShare := rfl

/-- `SchemaConfig::to_schema` is the source's builder chain
`Schema::builder().name(..).share_name(..).build().expect(..)`. -/
theorem toSchema_eq_build (cfg : SchemaConfig) (share_name : String) :
    (({} : SchemaBuilder).withName cfg.name |>.withShareName share_name).build =
      .ok (cfg.toSchema share_name) := rfl

/-- `TableConfig::to_table` is the source's builder chain
`Table::builder().name(..).storage_path(..).set_id(..).schema_name(..)
.share_name(..).set_extensions(..).build().expect(..)`. -/
theorem toTable_eq_build (cfg : TableConfig) (share_name schema_name : String) :
    (({} : TableBuilder).withName cfg.name |>.withStoragePath cfg.location
      |>.setId cfg.id |>.withSchemaName schema_name |>.withShareName share_name
      |>.setExtensions cfg.extensions).build =
      .ok (cfg.toTable share_name schema_name) := rfl

/-! ### C8: builder validation -/

/-- C8: each builder's `build` fails with `CatalogError::internal` naming
the missing required attribute exactly when one is unset — `name` for
shares; `name`, `share_name` for schemas; `share_name`, `schema_name`,
`table_name`, `storage_path` for tables — and on success the entity
carries every required field exactly as it was set. -/
theorem builders_require_fields :
    (∀ b : ShareBuilder,
      (b.build.isOk = true ↔ b.name.isSome = true) ∧
      (b.name = none →
        b.build = .error (CatalogError.internal
          "the required attribute `name` was not set")) ∧
      (∀ n, b.name = some n → b.build = .ok ⟨b.id, n, b.extensions⟩)) ∧
    (∀ b : SchemaBuilder,
      (b.build.isOk = true ↔ b.schemaName.isSome = true ∧ b.shareName.isSome = true) ∧
      (b.schemaName = none →
        b.build = .error (CatalogError.internal
          "the required attribute `name` was not set")) ∧
      (b.schemaName.isSome = true → b.shareName = none →
        b.build = .error (CatalogError.internal
          "the required attribute `share_name` was not set")) ∧
      (∀ n sn, b.schemaName = some n → b.shareName = some sn →
        b.build = .ok ⟨b.schemaId, n, sn, b.extensions⟩)) ∧
    (∀ b : TableBuilder,
      (b.build.isOk = true ↔ b.shareName.isSome = true ∧ b.schemaName.isSome = true ∧
        b.tableName.isSome = true ∧ b.storagePath.isSome = true) ∧
      (b.shareName = none →
        b.build = .error (CatalogError.internal
          "the required attribute `share_name` was not set")) ∧
      (b.shareName.isSome = true → b.schemaName = none →
        b.build = .error (CatalogError.internal
          "the required attribute `schema_name` was not set")) ∧
      (b.shareName.isSome = true → b.schemaName.isSome = true → b.tableName = none →
        b.build = .error (CatalogError.internal
          "the required attribute `table_name` was not set")) ∧
      (b.shareName.isSome = true → b.schemaName.isSome = true →
        b.tableName.isSome = true → b.storagePath = none →
        b.build = .error (CatalogError.internal
          "the required attribute `storage_path` was not set")) ∧
      (∀ sn scn n sp, b.shareName = some sn → b.schemaName = some scn →
        b.tableName = some n → b.storagePath = some sp →
        b.build = .ok ⟨b.tableId, n, b.shareId, sn, scn, sp, b.extensions⟩)) := by
  refine ⟨fun b => ?_, fun b => ?_, fun b => ?_⟩
  · obtain ⟨i, n, e⟩ := b
    cases n <;> simp [ShareBuilder.build, Except.isOk, Except.toBool]
  · obtain ⟨si, hi, n, sn, e⟩ := b
    cases n <;> cases sn <;>
      simp [SchemaBuilder.build, Except.isOk, Except.toBool]
  · obtain ⟨hi, ci, ti, hn, cn, tn, sp, e⟩ := b
    cases hn <;> cases cn <;> cases tn <;> cases sp <;>
      simp [TableBuilder.build, Except.isOk, Except.toBool] <;>
      (intro sn scn n sp h1 h2 h3 h4; exact ⟨h3, h1, h2, h4⟩)

/-- Witness for C8 at concrete builders: a table builder missing only its
storage path fails naming `storage_path`; the fully-set builder succeeds
with the fields as set. -/
theorem builders_require_fields_witness :
    TableBuilder.build ⟨none, none, none, some "sh", some "sc", some "t", none, none⟩ =
      .error (CatalogError.internal "the required attribute `storage_path` was not set") ∧
    TableBuilder.build ⟨none, none, none, some "sh", some "sc", some "t", some "s3://b/p", none⟩ =
      .ok ⟨none, "t", none, "sh", "sc", "s3://b/p", none⟩ := by
  constructor
  · exact (builders_require_fields.2.2
      ⟨none, none, none, some "sh", some "sc", some "t", none, none⟩).2.2.2.2.1
      rfl rfl rfl rfl
  · exact (builders_require_fields.2.2
      ⟨none, none, none, some "sh", some "sc", some "t", some "s3://b/p", none⟩).2.2.2.2.2
      "sh" "sc" "t" "s3://b/p" rfl rfl rfl rfl

/-! ### C9: determinism of the operations -/

/-- C9: against a fixed snapshot, two invocations of any of the six
operations with identical resource scope, recipient and pagination return
structurally identical results.  The embedded operations are pure
functions of the snapshot and the request — the source performs no
mutation and consults no other state after the snapshot is loaded — so
equal requests yield equal results. -/
theorem operations_deterministic (f : ShareFile) (r sn scn tn : String)
    (p q : Pagination) (hpq : p = q) :
    FileCatalog.list_shares f r p = FileCatalog.list_shares f r q ∧
    FileCatalog.list_schemas f sn r p = FileCatalog.list_schemas f sn r q ∧
    FileCatalog.list_tables_in_share f sn r p = FileCatalog.list_tables_in_share f sn r q ∧
    FileCatalog.list_tables_in_schema f sn scn r p =
      FileCatalog.list_tables_in_schema f sn scn r q ∧
    FileCatalog.get_share f sn r = FileCatalog.get_share f sn r ∧
    FileCatalog.get_table f sn scn tn r = FileCatalog.get_table f sn scn tn r := by
  subst hpq
  exact ⟨rfl, rfl, rfl, rfl, rfl, rfl⟩

/-- Witness for C9 at a concrete snapshot and request. -/
theorem operations_deterministic_witness :
    FileCatalog.list_shares ⟨[⟨"share1", [], none, none⟩]⟩ "anon" ⟨some 1, none⟩ =
      FileCatalog.list_shares ⟨[⟨"share1", [], none, none⟩]⟩ "anon" ⟨some 1, none⟩ :=
  (operations_deterministic ⟨[⟨"share1", [], none, none⟩]⟩ "anon" "s" "sc" "t"
    ⟨some 1, none⟩ ⟨some 1, none⟩ rfl).1

/-! ### C10: listing with a missing or invisible parent -/

/-- C10 (counterexample): `list_schemas` for a share name that matches
nothing, with the well-formed page token `"1"`, does not return an empty
`Ok` page — it panics on `items[1..]` over the empty filtered sequence. -/
theorem list_schemas_missing_parent_counterexample :
    FileCatalog.list_schemas ⟨[]⟩ "share1" "client1" ⟨none, some "1"⟩ =
      .panic "range start index out of range" := by
  decide

/-- C10 (amended): for pagination whose page token is absent or parses to
offset `0`, the three listing operations with a share name matching no
share visible to the recipient succeed with `Ok ⟨[], none⟩` (never
`ResourceNotFound`), and so does `list_tables_in_schema` when the schema
name matches no schema of a visible matching share. -/
theorem listing_missing_parent_ok_empty (f : ShareFile) (r sn scn : String)
    (p : Pagination) (hp : offsetOf p = .ok 0) :
    ((∀ cfg ∈ f.shares, cfg.name = sn → shareVisible r cfg = false) →
      FileCatalog.list_schemas f sn r p = .ok ⟨[], none⟩ ∧
      FileCatalog.list_tables_in_share f sn r p = .ok ⟨[], none⟩ ∧
      FileCatalog.list_tables_in_schema f sn scn r p = .ok ⟨[], none⟩) ∧
    ((∀ cfg ∈ f.shares, cfg.name = sn → ∀ sc ∈ cfg.schemas, ¬(sc.name = scn)) →
      FileCatalog.list_tables_in_schema f sn scn r p = .ok ⟨[], none⟩) := by
  have hpag : ∀ {T : Type}, paginate_response ([] : List T) p = .ok ⟨[], none⟩ := by
    intro T
    have h := paginate_response_last ([] : List T) p 0 hp (Nat.le_refl 0) (Nat.zero_le _)
    rw [h]
    rfl
  constructor
  · intro hinvis
    have hnil := matching_filter_nil f r sn hinvis
    refine ⟨?_, ?_, ?_⟩
    · unfold FileCatalog.list_schemas ShareFile.list_schemas
      rw [hnil]
      exact hpag
    · unfold FileCatalog.list_tables_in_share ShareFile.list_tables_in_share
      rw [hnil]
      exact hpag
    · unfold FileCatalog.list_tables_in_schema ShareFile.list_tables_in_schema
      rw [hnil]
      exact hpag
  · intro hnosc
    have hnil : (((f.shares.filter (shareVisible r)).filter
        (fun cfg => cfg.name == sn)).flatMap (fun cfg => cfg.schemas)).filter
        (fun sc => sc.name == scn) = [] := by
      rw [List.filter_eq_nil_iff]
      intro sc hsc
      simp only [List.mem_flatMap, List.mem_filter, beq_iff_eq] at hsc
      obtain ⟨cfg, ⟨⟨hcm, _⟩, hcn⟩, hscm⟩ := hsc
      simp only [beq_iff_eq]
      exact hnosc cfg hcm hcn sc hscm
    unfold FileCatalog.list_tables_in_schema ShareFile.list_tables_in_schema
    rw [hnil]
    exact hpag

/-- Witness for the amended C10: a restricted share is invisible to an
unauthorized recipient, so listing its schemas yields the empty page. -/
theorem listing_missing_parent_ok_empty_witness :
    FileCatalog.list_schemas ⟨[⟨"share2", [⟨"schema1", []⟩], some ["client1"], none⟩]⟩
      "share2" "other" ⟨none, none⟩ = .ok ⟨[], none⟩ :=
  ((listing_missing_parent_ok_empty
    ⟨[⟨"share2", [⟨"schema1", []⟩], some ["client1"], none⟩]⟩ "other" "share2" "x"
    ⟨none, none⟩ rfl).1 (by decide)).1

end DeltaSharing
